import Mathlib

/-!
# Verification of the Checklist-App inspection core

A shallow embedding of the checklist item validation and execution engine of
the Checklist-App backend (FastAPI + SQLAlchemy), together with proofs about
the properties its specification states.

Embedding conventions:
* Machine time is modelled as an integer number of seconds; a Python
  `timedelta.days` is floor division by 86400 (`Int.fdiv`).
* The SQLAlchemy session is modelled as an explicit record of entity lists
  (`DB`); `db.get` and `query(...).first()` become `List.find?`.
* `HTTPException` outcomes are modelled as a value-level error taxonomy
  (`ApiError`); comments at each site record the HTTP status the source uses.
* Python values stored in the free-form `wert` column are modelled by `Wert`;
  numeric literals are restricted to integers (every numeric value appearing
  in the verified properties is integral).
* Fallible operations return `Except ApiError (DB × result)`; an error means
  the source raised before mutating, so the store is unchanged by construction.
-/

namespace ChecklistApp

/-! ## Item types and validation (enhanced_checklists.py) -/

/-- The eight item kinds of `ChecklistItemTypeEnum` (schemas/checklist.py). -/
inductive ChecklistItemTypeEnum where
  | vehicle_info
  | rating_1_6
  | percentage
  | atemschutz
  | standard
  | quantity
  | date_check
  | status_check
deriving DecidableEq, Repr

/-- A value stored in the free-form `wert` field of an item result.
Python numbers are restricted to integers here; a dict is represented by its
key set, which is all the validation code inspects. -/
inductive Wert where
  | wInt (n : Int)
  | wStr (s : String)
  | wDict (keys : List String)
deriving DecidableEq, Repr

/-- Digit accumulator for `str_toInt`. -/
def parseNatAux : List Char → Nat → Option Nat
  | [], acc => some acc
  | c :: cs, acc =>
      if '0' ≤ c ∧ c ≤ '9' then
        parseNatAux cs (acc * 10 + (c.toNat - '0'.toNat))
      else none

/-- Parsing of an integer-literal string (optionally signed, all digits),
modelling which strings Python's `int()` accepts; surrounding whitespace and
digit separators are not modelled. -/
def str_toInt (s : String) : Option Int :=
  match s.data with
  | [] => none
  | '-' :: rest =>
      match rest with
      | [] => none
      | _ :: _ => (parseNatAux rest 0).map (fun n => -(n : Int))
  | l => (parseNatAux l 0).map (fun n => (n : Int))

/-- Python `int(x)`: identity on ints, parses integer-literal strings,
raises `ValueError` on other strings and `TypeError` on dicts.  The error
strings are representative exception texts; the proofs rely only on the
rejection reason being the `Ungültiger Wert:`-prefixed message. -/
def int_of_wert : Wert → Except String Int
  | .wInt n => .ok n
  | .wStr s =>
      match str_toInt s with
      | some n => .ok n
      | none => .error ("invalid literal for int() with base 10: " ++ s)
  | .wDict _ => .error "int() argument must be a string, a bytes-like object or a real number, not dict"

/-- Python `float(x)` restricted to the integral values used by the claims:
identity on ints, parses integer-literal strings, raises on other strings
and on dicts. -/
def float_of_wert : Wert → Except String Int
  | .wInt n => .ok n
  | .wStr s =>
      match str_toInt s with
      | some n => .ok n
      | none => .error ("could not convert string to float: " ++ s)
  | .wDict _ => .error "float() argument must be a string or a real number, not dict"

/-- The keys of the free-form JSON `validation_config` that
`validate_item_result` reads; an absent key falls back to the type default
via `.get(key, default)`. -/
structure ValidationConfig where
  min_value : Option Int := none
  max_value : Option Int := none
  required_fields : Option (List String) := none
  allowed_values : Option (List String) := none
  required : Option Bool := none
deriving DecidableEq, Repr

/-- `ChecklistItem` row (models/checklist.py plus the enhanced columns added
by the schema migration).  `item_type` is nullable: legacy untyped items
carry `none`. -/
structure ChecklistItem where
  id : Nat
  checkliste_id : Nat
  beschreibung : String := ""
  item_type : Option ChecklistItemTypeEnum := none
  validation_config : Option ValidationConfig := none
  editable_roles : Option (List String) := none
  requires_tuv : Bool := false
  pflicht : Bool := true
  reihenfolge : Nat := 0
deriving DecidableEq, Repr

/-- `ItemErgebnisCreate` payload (schemas/checklist.py).  `status` is a
non-nullable string defaulting to "ok"; every other field is nullable. -/
structure ItemErgebnisCreate where
  item_id : Nat
  status : String := "ok"
  wert : Option Wert := none
  vorhanden : Option Bool := none
  tuv_datum : Option Int := none
  tuv_status : Option String := none
  menge : Option Int := none
  kommentar : Option String := none
deriving DecidableEq, Repr

/-- `validate_item_result` (enhanced_checklists.py 221-285).  Returns `none`
for an accepted result and `some reason` for a rejected one.  The source
reads `datetime.now()` for the `date_check` branch; the clock is passed
explicitly as `now`.  The `try/except (ValueError, TypeError)` around the
dispatch catches exactly the `int()`/`float()` coercion failures, which are
returned here at the coercion site as the `Ungültiger Wert:` message. -/
def validate_item_result (now : Int) (item : ChecklistItem)
    (result_data : ItemErgebnisCreate) : Option String :=
  match item.item_type with
  | none => none
  | some t =>
    let validation_config := item.validation_config.getD {}
    match t with
    | .rating_1_6 =>
        match result_data.wert with
        | none => none
        | some w =>
            match int_of_wert w with
            | .error e => some ("Ungültiger Wert: " ++ e)
            | .ok rating =>
                let min_val := validation_config.min_value.getD 1
                let max_val := validation_config.max_value.getD 6
                if ¬ (min_val ≤ rating ∧ rating ≤ max_val) then
                  some ("Bewertung muss zwischen " ++ toString min_val ++
                        " und " ++ toString max_val ++ " liegen")
                else none
    | .percentage =>
        match result_data.wert with
        | none => none
        | some w =>
            match float_of_wert w with
            | .error e => some ("Ungültiger Wert: " ++ e)
            | .ok percentage =>
                let min_val := validation_config.min_value.getD 0
                let max_val := validation_config.max_value.getD 100
                if ¬ (min_val ≤ percentage ∧ percentage ≤ max_val) then
                  some ("Prozentwert muss zwischen " ++ toString min_val ++
                        "% und " ++ toString max_val ++ "% liegen")
                else none
    | .atemschutz =>
        match result_data.wert with
        | some (.wDict keys) =>
            if keys ≠ [] then
              let required_fields := validation_config.required_fields.getD []
              match required_fields.find? (fun f => ¬ keys.contains f) with
              | some f => some ("Pflichtfeld fehlt: " ++ f)
              | none => none
            else none
        | _ => none
    | .quantity =>
        match result_data.menge with
        | none => none
        | some menge =>
            let min_val := validation_config.min_value.getD 0
            let max_val := validation_config.max_value.getD 999
            if ¬ (min_val ≤ menge ∧ menge ≤ max_val) then
              some ("Anzahl muss zwischen " ++ toString min_val ++
                    " und " ++ toString max_val ++ " liegen")
            else none
    | .vehicle_info => some "Fahrzeugdaten können nicht bearbeitet werden"
    | .status_check =>
        if result_data.status ≠ "" then
          let allowed_values :=
            validation_config.allowed_values.getD ["ok", "fehler", "nicht_pruefbar"]
          if ¬ allowed_values.contains result_data.status then
            some ("Status muss einer der folgenden Werte sein: " ++
                  String.intercalate ", " allowed_values)
          else none
        else none
    | .date_check =>
        match result_data.tuv_datum with
        | some d =>
            if validation_config.required.getD true then
              if d < now then some "TÜV-Datum liegt in der Vergangenheit" else none
            else none
        | none => none
    | .standard =>
        let required_fields := validation_config.required_fields.getD []
        if required_fields.contains "vorhanden" ∧ result_data.vorhanden = none then
          some "Angabe erforderlich: Ist das Element vorhanden?"
        else none

/-! ## TÜV status calculator (tuv.py 20-30) -/

/-- `calculate_tuv_status` (tuv.py).  `(ablauf_datum - now).days` in Python is
floor division of the total duration by one day, hence `Int.fdiv`. -/
def calculate_tuv_status (ablauf_datum : Int) (now : Int) : String :=
  let days_remaining := (ablauf_datum - now).fdiv 86400
  if days_remaining < 0 then "expired"
  else if days_remaining ≤ 30 then "warning"
  else "current"

/-! ## Entities and the store -/

/-- Acting user (`Benutzer`); the role is one of
"benutzer" < "gruppenleiter" < "organisator" < "admin". -/
structure Benutzer where
  id : Nat
  rolle : String := "benutzer"
deriving DecidableEq, Repr

/-- `Checkliste` row. -/
structure Checkliste where
  id : Nat
  name : String := ""
  fahrzeuggruppe_id : Nat
  ersteller_id : Option Nat := none
  template : Bool := false
deriving DecidableEq, Repr

/-- `Fahrzeug` row. -/
structure Fahrzeug where
  id : Nat
  kennzeichen : String := ""
  fahrzeuggruppe_id : Nat
deriving DecidableEq, Repr

/-- `ChecklistAusfuehrung` row: one execution of a checklist on a vehicle. -/
structure ChecklistAusfuehrung where
  id : Nat
  checkliste_id : Nat
  fahrzeug_id : Nat
  benutzer_id : Nat
  status : String := "started"
  completed_at : Option Int := none
deriving DecidableEq, Repr

/-- `ItemErgebnis` row (with the enhanced columns of the schema migration). -/
structure ItemErgebnis where
  id : Nat
  ausfuehrung_id : Nat
  item_id : Nat
  status : String := "ok"
  kommentar : Option String := none
  wert : Option Wert := none
  vorhanden : Option Bool := none
  tuv_datum : Option Int := none
  tuv_status : Option String := none
  menge : Option Int := none
deriving DecidableEq, Repr

/-- The transactional store: the entity tables the core touches, plus the
autoincrement counter used for new primary keys. -/
structure DB where
  checklisten : List Checkliste := []
  fahrzeuge : List Fahrzeug := []
  items : List ChecklistItem := []
  ausfuehrungen : List ChecklistAusfuehrung := []
  ergebnisse : List ItemErgebnis := []
  next_id : Nat := 1
deriving DecidableEq, Repr

/-- `db.get(Checkliste, i)`. -/
def getCheckliste (db : DB) (i : Nat) : Option Checkliste :=
  db.checklisten.find? (fun c => c.id == i)

/-- `db.get(Fahrzeug, i)`. -/
def getFahrzeug (db : DB) (i : Nat) : Option Fahrzeug :=
  db.fahrzeuge.find? (fun v => v.id == i)

/-- `db.get(ChecklistAusfuehrung, i)`. -/
def getAusfuehrung (db : DB) (i : Nat) : Option ChecklistAusfuehrung :=
  db.ausfuehrungen.find? (fun r => r.id == i)

/-- `db.get(ChecklistItem, i)` — lookup by id only. -/
def getChecklistItem (db : DB) (i : Nat) : Option ChecklistItem :=
  db.items.find? (fun it => it.id == i)

/-- `query(ChecklistItem).filter(id == item_id, checkliste_id == cid).first()`. -/
def getItemInChecklist (db : DB) (item_id : Nat) (checkliste_id : Nat) :
    Option ChecklistItem :=
  db.items.find? (fun it => it.id == item_id && it.checkliste_id == checkliste_id)

/-- The filter for an active run of `checklist_id` on `fahrzeug_id`. -/
def activePred (checklist_id fahrzeug_id : Nat) (r : ChecklistAusfuehrung) : Bool :=
  r.checkliste_id == checklist_id && r.fahrzeug_id == fahrzeug_id && r.status == "started"

/-- `query(ChecklistAusfuehrung).filter(pair, status == "started").first()`. -/
def findActiveRun (db : DB) (checklist_id fahrzeug_id : Nat) :
    Option ChecklistAusfuehrung :=
  db.ausfuehrungen.find? (activePred checklist_id fahrzeug_id)

/-- The filter keying an item result by its (execution, item) pair. -/
def ergebnisPred (ausfuehrung_id item_id : Nat) (r : ItemErgebnis) : Bool :=
  r.ausfuehrung_id == ausfuehrung_id && r.item_id == item_id

/-- `query(ItemErgebnis).filter(ausfuehrung_id, item_id).first()`. -/
def findErgebnis (db : DB) (ausfuehrung_id item_id : Nat) : Option ItemErgebnis :=
  db.ergebnisse.find? (ergebnisPred ausfuehrung_id item_id)

/-- In-place mutation of the first matching row, as the source's
`first()`-then-`setattr` pattern does. -/
def updateFirstErgebnis (l : List ItemErgebnis) (p : ItemErgebnis → Bool)
    (f : ItemErgebnis → ItemErgebnis) : List ItemErgebnis :=
  match l with
  | [] => []
  | r :: rs => if p r then f r :: rs else r :: updateFirstErgebnis rs p f

/-- In-place mutation of the first matching execution row. -/
def updateFirstAusfuehrung (l : List ChecklistAusfuehrung)
    (p : ChecklistAusfuehrung → Bool)
    (f : ChecklistAusfuehrung → ChecklistAusfuehrung) : List ChecklistAusfuehrung :=
  match l with
  | [] => []
  | r :: rs => if p r then f r :: rs else r :: updateFirstAusfuehrung rs p f

/-- The spec's value-level error taxonomy (§7); each operation's comments map
the source's HTTP statuses onto it (`Conflict` and `Invalid` are raised as
HTTP 400 by the source, entity absence as 404 or 400). -/
inductive ApiError where
  | notFound (detail : String)
  | conflict (detail : String)
  | forbidden (detail : String)
  | invalid (detail : String)
deriving DecidableEq, Repr

/-! ## Execution state machine (checklists.py) -/

/-- The fresh execution row every creation site inserts: next primary key,
the referenced pair, the acting user, status started. -/
def newRun (db : DB) (checklist_id fahrzeug_id : Nat) (u : Benutzer) :
    ChecklistAusfuehrung :=
  { id := db.next_id, checkliste_id := checklist_id, fahrzeug_id := fahrzeug_id,
    benutzer_id := u.id, status := "started" }

/-- `start_checklist_run` (checklists.py 218-265).  Checks that the checklist
exists (404), the vehicle exists (400), and no started run exists for the
(checklist, vehicle) pair (400, a `Conflict` in the spec taxonomy); it makes
NO comparison of the checklist's vehicle group with the vehicle's group. -/
def start_checklist_run (db : DB) (checklist_id : Nat) (fahrzeug_id : Nat)
    (current_user : Benutzer) : Except ApiError (DB × ChecklistAusfuehrung) :=
  match getCheckliste db checklist_id with
  | none => .error (.notFound "Checkliste nicht gefunden")
  | some _ =>
    match getFahrzeug db fahrzeug_id with
    | none => .error (.notFound "Fahrzeug nicht gefunden")
    | some _ =>
      match findActiveRun db checklist_id fahrzeug_id with
      | some _ =>
          .error (.conflict "Aktive Durchführung für diese Kombination bereits vorhanden")
      | none =>
          let new_run := newRun db checklist_id fahrzeug_id current_user
          .ok ({ db with ausfuehrungen := db.ausfuehrungen ++ [new_run],
                         next_id := db.next_id + 1 }, new_run)

/-- `start_checklist_for_vehicle` (vehicles.py 460-516).  Unlike
`start_checklist_run`, the checklist lookup here additionally requires the
checklist's `fahrzeuggruppe_id` to equal the vehicle's and the checklist not
to be a template; a mismatch is a 404. -/
def start_checklist_for_vehicle (db : DB) (vehicle_id checklist_id : Nat)
    (current_user : Benutzer) : Except ApiError (DB × ChecklistAusfuehrung) :=
  match getFahrzeug db vehicle_id with
  | none => .error (.notFound "Fahrzeug nicht gefunden")
  | some vehicle =>
    match db.checklisten.find? (fun c =>
        c.id == checklist_id &&
        c.fahrzeuggruppe_id == vehicle.fahrzeuggruppe_id &&
        c.template == false) with
    | none =>
        .error (.notFound "Checkliste nicht gefunden oder nicht verfügbar für dieses Fahrzeug")
    | some _ =>
      match findActiveRun db checklist_id vehicle_id with
      | some _ =>
          .error (.conflict "Aktive Durchführung für diese Kombination bereits vorhanden")
      | none =>
          let new_run := newRun db checklist_id vehicle_id current_user
          .ok ({ db with ausfuehrungen := db.ausfuehrungen ++ [new_run],
                         next_id := db.next_id + 1 }, new_run)

/-- The in-place update the basic record route applies to a stored row:
status and kommentar are overwritten with the payload values
unconditionally. -/
def basicUpdateRow (rd : ItemErgebnisCreate) (r : ItemErgebnis) : ItemErgebnis :=
  { r with status := rd.status, kommentar := rd.kommentar }

/-- The row inserted on first submission, carrying every payload field. -/
def newResultRow (next : Nat) (ausfuehrung_id : Nat)
    (rd : ItemErgebnisCreate) : ItemErgebnis :=
  { id := next, ausfuehrung_id := ausfuehrung_id, item_id := rd.item_id,
    status := rd.status, kommentar := rd.kommentar, wert := rd.wert,
    vorhanden := rd.vorhanden, tuv_datum := rd.tuv_datum,
    tuv_status := rd.tuv_status, menge := rd.menge }

/-- `record_item_result` (checklists.py 290-361).  On an existing
(execution, item) result it overwrites `status` and `kommentar` with the
payload values unconditionally — a null payload `kommentar` clears the stored
one; the other columns of the row are left as they are.  On first submission
it inserts a row carrying every payload field. -/
def record_item_result (db : DB) (run_id : Nat)
    (result_data : ItemErgebnisCreate) (current_user : Benutzer) :
    Except ApiError (DB × ItemErgebnis) :=
  match getAusfuehrung db run_id with
  | none => .error (.notFound "Durchführung nicht gefunden")
  | some run =>
    if run.status ≠ "started" then
      -- HTTP 400; a state-machine `Conflict` in the spec taxonomy
      .error (.conflict "Durchführung ist nicht aktiv")
    else if run.benutzer_id ≠ current_user.id ∧
            current_user.rolle ∉ ["organisator", "admin"] then
      .error (.forbidden "Keine Berechtigung diese Durchführung zu bearbeiten")
    else
      match getItemInChecklist db result_data.item_id run.checkliste_id with
      | none => .error (.notFound "Item gehört nicht zu dieser Checkliste")
      | some _ =>
        if result_data.status ∉ ["ok", "fehler", "nicht_pruefbar"] then
          .error (.invalid "Ungültiger Status. Erlaubt: ok, fehler, nicht_pruefbar")
        else
          match findErgebnis db run_id result_data.item_id with
          | some existing =>
              let neu :=
                updateFirstErgebnis db.ergebnisse
                  (ergebnisPred run_id result_data.item_id)
                  (basicUpdateRow result_data)
              .ok ({ db with ergebnisse := neu }, basicUpdateRow result_data existing)
          | none =>
              let new_result := newResultRow db.next_id run_id result_data
              .ok ({ db with ergebnisse := db.ergebnisse ++ [new_result],
                             next_id := db.next_id + 1 }, new_result)

/-- The update applied by `create_enhanced_item_result` to an existing row:
`setattr` for every payload field that is not None (`status` is non-nullable
and therefore always overwritten). -/
def enhancedUpdate (result_data : ItemErgebnisCreate) (r : ItemErgebnis) :
    ItemErgebnis :=
  { r with
    status := result_data.status,
    wert := match result_data.wert with
            | some w => some w
            | none => r.wert,
    vorhanden := match result_data.vorhanden with
                 | some b => some b
                 | none => r.vorhanden,
    tuv_datum := match result_data.tuv_datum with
                 | some d => some d
                 | none => r.tuv_datum,
    tuv_status := match result_data.tuv_status with
                  | some s => some s
                  | none => r.tuv_status,
    menge := match result_data.menge with
             | some m => some m
             | none => r.menge,
    kommentar := match result_data.kommentar with
                 | some k => some k
                 | none => r.kommentar }

/-- `create_enhanced_item_result` (enhanced_checklists.py 113-188).  Note:
this route performs NO check of `execution.status`, looks the item up by id
only (not by membership in the execution's checklist), and runs the
validation engine before any persistence. -/
def create_enhanced_item_result (db : DB) (execution_id : Nat)
    (result_data : ItemErgebnisCreate) (current_user : Benutzer) (now : Int) :
    Except ApiError (DB × ItemErgebnis) :=
  match getAusfuehrung db execution_id with
  | none => .error (.notFound "Checklistenausführung nicht gefunden")
  | some execution =>
    if execution.benutzer_id ≠ current_user.id ∧
       current_user.rolle ∉ ["organisator", "admin"] then
      .error (.forbidden "Keine Berechtigung für diese Checklistenausführung")
    else
      match getChecklistItem db result_data.item_id with
      | none => .error (.notFound "Checklistenpunkt nicht gefunden")
      | some item =>
        match validate_item_result now item result_data with
        | some validation_error => .error (.invalid validation_error)
        | none =>
          match findErgebnis db execution_id result_data.item_id with
          | some existing =>
              let neu :=
                updateFirstErgebnis db.ergebnisse
                  (ergebnisPred execution_id result_data.item_id)
                  (enhancedUpdate result_data)
              .ok ({ db with ergebnisse := neu }, enhancedUpdate result_data existing)
          | none =>
              let new_result := newResultRow db.next_id execution_id result_data
              .ok ({ db with ergebnisse := db.ergebnisse ++ [new_result],
                             next_id := db.next_id + 1 }, new_result)

/-- `complete_checklist_run` (checklists.py 364-395): ownership/role check,
then the started check (400, a `Conflict`), then the transition to
`completed` with the completion timestamp. -/
def complete_checklist_run (db : DB) (run_id : Nat) (current_user : Benutzer)
    (now : Int) : Except ApiError DB :=
  match getAusfuehrung db run_id with
  | none => .error (.notFound "Durchführung nicht gefunden")
  | some run =>
    if run.benutzer_id ≠ current_user.id ∧
       current_user.rolle ∉ ["organisator", "admin"] then
      .error (.forbidden "Keine Berechtigung diese Durchführung zu bearbeiten")
    else if run.status ≠ "started" then
      .error (.conflict "Durchführung ist nicht aktiv")
    else
      let neu :=
        updateFirstAusfuehrung db.ausfuehrungen (fun r => r.id == run_id)
          (fun r => { r with status := "completed", completed_at := some now })
      .ok { db with ausfuehrungen := neu }

/-! ## Sync batch processor (sync.py) -/

/-- Item payload inside a `create_checklist` sync action (`items_data`);
only description, mandatory flag and display order are read by the source. -/
structure SyncItemData where
  beschreibung : String := ""
  pflicht : Bool := true
  reihenfolge : Nat := 0
deriving DecidableEq, Repr

/-- The action kinds dispatched by `process_sync_action`, with the payload
fields each branch reads from `data`.  A payload id that is absent in the
JSON behaves like an id no row carries, so ids are plain naturals here. -/
inductive SyncActionData where
  | create_checklist_run (checklist_id fahrzeug_id : Nat)
  | update_item_result (run_id item_id : Nat) (status : String) (kommentar : Option String)
  | complete_checklist_run (run_id : Nat)
  | create_checklist (name : String) (fahrzeuggruppe_id : Nat) (template : Bool)
      (items : List SyncItemData)
  | unknown (action_type : String)
deriving DecidableEq, Repr

/-- The `action_type` string of an action, as reported in error entries. -/
def actionTypeName : SyncActionData → String
  | .create_checklist_run _ _ => "create_checklist_run"
  | .update_item_result _ _ _ _ => "update_item_result"
  | .complete_checklist_run _ => "complete_checklist_run"
  | .create_checklist _ _ _ _ => "create_checklist"
  | .unknown s => s

/-- One queued client action (`OfflineAction` schema): kind plus the
client-supplied timestamp echoed into failure entries. -/
structure OfflineAction where
  action : SyncActionData
  timestamp : Int := 0
deriving DecidableEq, Repr

/-- The per-action outcome dict of `process_sync_action`. -/
structure SyncResult where
  success : Bool
  resource_id : Option Nat := none
  message : Option String := none
  error : Option String := none
deriving DecidableEq, Repr

/-- Shorthand for the `{"success": False, "error": e}` outcome. -/
def failResult (e : String) : SyncResult :=
  { success := false, error := some e }

/-- Items created by the `create_checklist` branch, with autoincrement ids
from `start` on.  The source passes no `item_type`; the column default
supplied by the schema migration is a storage concern not modelled here. -/
def mkSyncItems (checkliste_id : Nat) (start : Nat) :
    List SyncItemData → List ChecklistItem
  | [] => []
  | d :: ds =>
      { id := start, checkliste_id := checkliste_id,
        beschreibung := d.beschreibung, item_type := none,
        pflicht := d.pflicht, reihenfolge := d.reihenfolge } ::
        mkSyncItems checkliste_id (start + 1) ds

/-- `process_sync_action` (sync.py 19-165).  Each branch returns the flushed
store and the outcome dict; every failure path leaves the store untouched.
The surrounding `except Exception` that turns any raised exception into a
failure entry is what makes the source function total; the embedding is
total by construction. -/
def process_sync_action (db : DB) (current_user : Benutzer)
    (a : SyncActionData) (now : Int) : DB × SyncResult :=
  match a with
  | .create_checklist_run checklist_id fahrzeug_id =>
    match getCheckliste db checklist_id with
    | none => (db, failResult "Checkliste nicht gefunden")
    | some _ =>
      match getFahrzeug db fahrzeug_id with
      | none => (db, failResult "Fahrzeug nicht gefunden")
      | some _ =>
        match findActiveRun db checklist_id fahrzeug_id with
        | some existing_run =>
            (db, { success := true, resource_id := some existing_run.id,
                   message := some "Bereits aktive Durchführung" })
        | none =>
            let new_run := newRun db checklist_id fahrzeug_id current_user
            ({ db with ausfuehrungen := db.ausfuehrungen ++ [new_run],
                       next_id := db.next_id + 1 },
             { success := true, resource_id := some new_run.id })
  | .update_item_result run_id item_id item_status kommentar =>
    match getAusfuehrung db run_id with
    | none => (db, failResult "Durchführung nicht gefunden")
    | some run =>
      if run.status ≠ "started" then (db, failResult "Durchführung ist nicht aktiv")
      else
        match getItemInChecklist db item_id run.checkliste_id with
        | none => (db, failResult "Item gehört nicht zu dieser Checkliste")
        | some _ =>
          match findErgebnis db run_id item_id with
          | some result =>
              let neu :=
                updateFirstErgebnis db.ergebnisse (ergebnisPred run_id item_id)
                  (fun r => { r with status := item_status, kommentar := kommentar })
              ({ db with ergebnisse := neu },
               { success := true, resource_id := some result.id })
          | none =>
              let new_result : ItemErgebnis :=
                { id := db.next_id, ausfuehrung_id := run_id, item_id := item_id,
                  status := item_status, kommentar := kommentar }
              ({ db with ergebnisse := db.ergebnisse ++ [new_result],
                         next_id := db.next_id + 1 },
               { success := true, resource_id := some new_result.id })
  | .complete_checklist_run run_id =>
    match getAusfuehrung db run_id with
    | none => (db, failResult "Durchführung nicht gefunden")
    | some run =>
      if run.status ≠ "started" then (db, failResult "Durchführung ist nicht aktiv")
      else if run.benutzer_id ≠ current_user.id ∧
              current_user.rolle ∉ ["organisator", "admin"] then
        (db, failResult "Keine Berechtigung")
      else
        let neu :=
          updateFirstAusfuehrung db.ausfuehrungen (fun r => r.id == run_id)
            (fun r => { r with status := "completed", completed_at := some now })
        ({ db with ausfuehrungen := neu },
         { success := true, resource_id := some run_id })
  | .create_checklist name fahrzeuggruppe_id template items_data =>
    if current_user.rolle ∉ ["organisator", "admin"] then
      (db, failResult "Keine Berechtigung")
    else
      let checklist : Checkliste :=
        { id := db.next_id, name := name, fahrzeuggruppe_id := fahrzeuggruppe_id,
          template := template, ersteller_id := some current_user.id }
      ({ db with checklisten := db.checklisten ++ [checklist],
                 items := db.items ++ mkSyncItems checklist.id (db.next_id + 1) items_data,
                 next_id := db.next_id + 1 + items_data.length },
       { success := true, resource_id := some checklist.id })
  | .unknown action_type =>
      (db, failResult ("Unbekannter Action-Typ: " ++ action_type))

/-- One failure entry of the batch response. -/
structure SyncError where
  action_type : String
  error : Option String := none
  timestamp : Int := 0
deriving DecidableEq, Repr

/-- `SyncBatchResponse`. -/
structure SyncBatchResponse where
  processed : Nat
  failed : Nat
  errors : List SyncError
deriving DecidableEq, Repr

/-- The batch loop of `push_actions` (sync.py 180-193): every action is
visited, its outcome counted, and a failure appends one error entry; the
flushed store is threaded through so later actions see earlier effects. -/
def syncLoop (current_user : Benutzer) (now : Int) :
    List OfflineAction → DB → DB × Nat × Nat × List SyncError
  | [], db => (db, 0, 0, [])
  | a :: rest, db =>
    let step := process_sync_action db current_user a.action now
    let r := step.2
    let rec2 := syncLoop current_user now rest step.1
    if r.success then
      (rec2.1, rec2.2.1 + 1, rec2.2.2.1, rec2.2.2.2)
    else
      (rec2.1, rec2.2.1, rec2.2.2.1 + 1,
       { action_type := actionTypeName a.action, error := r.error,
         timestamp := a.timestamp } :: rec2.2.2.2)

/-- `push_actions` (sync.py 168-213): after the loop, the batch is committed
when at least one action succeeded and rolled back (store restored) when
none did. -/
def push_actions (db : DB) (current_user : Benutzer)
    (actions : List OfflineAction) (now : Int) : DB × SyncBatchResponse :=
  let r := syncLoop current_user now actions db
  let resp : SyncBatchResponse :=
    { processed := r.2.1, failed := r.2.2.1, errors := r.2.2.2 }
  if r.2.1 > 0 then (r.1, resp) else (db, resp)

/-! ## The reachable-state operations

Every operation of the embedding that touches the execution table, gathered
into one step type so that state invariants can be stated over all of them. -/

/-- One invocation of any modelled operation. -/
inductive Op where
  | startRun (checklist_id fahrzeug_id : Nat) (u : Benutzer)
  | startForVehicle (vehicle_id checklist_id : Nat) (u : Benutzer)
  | record (run_id : Nat) (rd : ItemErgebnisCreate) (u : Benutzer)
  | recordEnhanced (execution_id : Nat) (rd : ItemErgebnisCreate) (u : Benutzer) (now : Int)
  | complete (run_id : Nat) (u : Benutzer) (now : Int)
  | syncBatch (u : Benutzer) (actions : List OfflineAction) (now : Int)

/-- The store after an operation: the successor store on success, the
unchanged store when the operation failed. -/
def applyOp (db : DB) : Op → DB
  | .startRun cid vid u =>
      match start_checklist_run db cid vid u with
      | .ok (db2, _) => db2
      | .error _ => db
  | .startForVehicle vid cid u =>
      match start_checklist_for_vehicle db vid cid u with
      | .ok (db2, _) => db2
      | .error _ => db
  | .record rid rd u =>
      match record_item_result db rid rd u with
      | .ok (db2, _) => db2
      | .error _ => db
  | .recordEnhanced eid rd u now =>
      match create_enhanced_item_result db eid rd u now with
      | .ok (db2, _) => db2
      | .error _ => db
  | .complete rid u now =>
      match complete_checklist_run db rid u now with
      | .ok db2 => db2
      | .error _ => db
  | .syncBatch u actions now => (push_actions db u actions now).1

/-- The started runs of one (checklist, vehicle) pair. -/
def activeRuns (db : DB) (checklist_id fahrzeug_id : Nat) :
    List ChecklistAusfuehrung :=
  db.ausfuehrungen.filter (activePred checklist_id fahrzeug_id)

/-- The §3 invariant: at most one started execution per (checklist, vehicle)
pair. -/
def AtMostOneActive (db : DB) : Prop :=
  ∀ checklist_id fahrzeug_id : Nat,
    (activeRuns db checklist_id fahrzeug_id).length ≤ 1

/-! ## Concrete stores and payloads

Small closed instances used by the witness and counterexample theorems. -/

/-- A plain user. -/
def benutzerW : Benutzer := { id := 9, rolle := "benutzer" }

/-- The user owning the executions of the concrete stores below. -/
def benutzer7 : Benutzer := { id := 7, rolle := "benutzer" }

/-- A rating item without explicit validation configuration. -/
def itemRatingW : ChecklistItem :=
  { id := 1, checkliste_id := 1, item_type := some .rating_1_6 }

/-- A percentage item without explicit validation configuration. -/
def itemPctW : ChecklistItem :=
  { id := 2, checkliste_id := 1, item_type := some .percentage }

/-- A quantity item without explicit validation configuration. -/
def itemQtyW : ChecklistItem :=
  { id := 5, checkliste_id := 1, item_type := some .quantity }

/-- A vehicle-info item with empty validation configuration. -/
def itemViW : ChecklistItem :=
  { id := 8, checkliste_id := 1, item_type := some .vehicle_info,
    validation_config := some {} }

/-- A result payload carrying a given raw value. -/
def rdWert (w : Option Wert) : ItemErgebnisCreate := { item_id := 1, wert := w }

/-- An all-null result payload (only the non-nullable status default). -/
def rdNullW : ItemErgebnisCreate := { item_id := 3 }

/-- A standard item requiring the presence flag. -/
def itemC10 : ChecklistItem :=
  { id := 3, checkliste_id := 1, item_type := some .standard,
    validation_config := some { required_fields := some ["vorhanden"] } }

/-- Store with a checklist in vehicle group 10 and a vehicle in group 20. -/
def dbC3 : DB :=
  { checklisten := [{ id := 1, name := "A", fahrzeuggruppe_id := 10 }],
    fahrzeuge := [{ id := 2, fahrzeuggruppe_id := 20 }],
    next_id := 5 }

/-- Store whose only execution is already completed. -/
def dbC4 : DB :=
  { items := [{ id := 3, checkliste_id := 1 }],
    ausfuehrungen := [{ id := 1, checkliste_id := 1, fahrzeug_id := 1,
                        benutzer_id := 7, status := "completed" }],
    next_id := 10 }

/-- Store with a started execution and one stored result carrying a comment. -/
def dbC5 : DB :=
  { items := [{ id := 3, checkliste_id := 1 }],
    ausfuehrungen := [{ id := 1, checkliste_id := 1, fahrzeug_id := 1,
                        benutzer_id := 7 }],
    ergebnisse := [{ id := 4, ausfuehrung_id := 1, item_id := 3,
                     status := "ok", kommentar := some "alt" }],
    next_id := 10 }

/-- Second submission for the stored result of `dbC5`, with a null comment. -/
def rdC5 : ItemErgebnisCreate := { item_id := 3, status := "fehler" }

/-- `dbC5` without the stored result, for exercising the insert path. -/
def dbC5n : DB := { dbC5 with ergebnisse := [] }

/-- Store with one checklist and one vehicle in the same group. -/
def dbC6 : DB :=
  { checklisten := [{ id := 1, fahrzeuggruppe_id := 10 }],
    fahrzeuge := [{ id := 2, fahrzeuggruppe_id := 10 }],
    items := [{ id := 3, checkliste_id := 1 }],
    next_id := 5 }

/-- The store `dbC6` after a successful start for (checklist 1, vehicle 2). -/
def dbC6s : DB :=
  { dbC6 with ausfuehrungen := dbC6.ausfuehrungen ++ [newRun dbC6 1 2 benutzerW],
              next_id := dbC6.next_id + 1 }

/-- A batch of three actions whose second references a missing execution. -/
def actsC7 : List OfflineAction :=
  [{ action := .create_checklist_run 1 2, timestamp := 11 },
   { action := .update_item_result 99 3 "ok" none, timestamp := 12 },
   { action := .update_item_result 5 3 "ok" (some "gut"), timestamp := 13 }]

/-- An admin user. -/
def adminW : Benutzer := { id := 99, rolle := "admin" }

/-- Store holding the vehicle-info item and a started execution. -/
def dbC9 : DB :=
  { items := [itemViW],
    ausfuehrungen := [{ id := 1, checkliste_id := 1, fahrzeug_id := 1,
                        benutzer_id := 7 }],
    next_id := 20 }

/-- A proposed result for the vehicle-info item. -/
def rdVi : ItemErgebnisCreate := { item_id := 8, wert := some (.wStr "X") }

/-- An arbitrary successful outcome value, for refuting success. -/
def outW : DB × ItemErgebnis := (dbC9, { id := 0, ausfuehrung_id := 0, item_id := 0 })

/-- Store with one already-started run for the pair (checklist 5, vehicle 7). -/
def dbC1 : DB :=
  { checklisten := [{ id := 5, fahrzeuggruppe_id := 10 }],
    fahrzeuge := [{ id := 7, fahrzeuggruppe_id := 10 }],
    ausfuehrungen := [{ id := 2, checkliste_id := 5, fahrzeug_id := 7,
                        benutzer_id := 7, status := "started" }],
    next_id := 9 }

/-- The failure entry the concrete batch below produces for its second
action. -/
def errC7 : SyncError :=
  { action_type := "update_item_result",
    error := some "Durchführung nicht gefunden", timestamp := 12 }

/-- The per-kind field that each validation branch guards on; `true` when the
proposed result leaves that field null (for `status_check`: empty, the
`status` column being non-nullable). -/
def typeRelevantFieldAbsent (kind : ChecklistItemTypeEnum)
    (rd : ItemErgebnisCreate) : Bool :=
  match kind with
  | .rating_1_6 | .percentage | .atemschutz => rd.wert.isNone
  | .quantity => rd.menge.isNone
  | .status_check => rd.status == ""
  | .date_check => rd.tuv_datum.isNone
  | .standard => rd.vorhanden.isNone
  | .vehicle_info => false

/-! ## Theorems -/

/-- C2: `calculate_tuv_status` classifies expiration `e` against clock `t` as
`expired` exactly when `e < t`, as `warning` when the whole-day difference
(truncated toward zero; identical to the source's floor on the non-expired
side) lies in `[0, 30]`, and as `current` otherwise; in particular one day
before `t` is `expired`, `t` itself and `t` plus 30 days are `warning`, and
`t` plus 31 days is `current`. -/
theorem C2_calculate_tuv_status_classifies :
    ∀ e t : Int,
      (calculate_tuv_status e t =
        if e < t then "expired"
        else if 0 ≤ (e - t).tdiv 86400 ∧ (e - t).tdiv 86400 ≤ 30 then "warning"
        else "current") ∧
      calculate_tuv_status (t - 86400) t = "expired" ∧
      calculate_tuv_status t t = "warning" ∧
      calculate_tuv_status (t + 30 * 86400) t = "warning" ∧
      calculate_tuv_status (t + 31 * 86400) t = "current" := by
  intro e t
  refine ⟨?_, ?_, ?_, ?_, ?_⟩
  · simp only [calculate_tuv_status]
    rw [Int.fdiv_eq_ediv _ (by norm_num)]
    by_cases h : e < t
    · have hd : (e - t) / 86400 < 0 := by omega
      rw [if_pos hd, if_pos h]
    · have h0 : (0 : Int) ≤ e - t := by omega
      rw [Int.tdiv_eq_ediv h0 (by norm_num)]
      have hd : ¬ ((e - t) / 86400 < 0) := by omega
      rw [if_neg hd, if_neg h]
      by_cases h30 : (e - t) / 86400 ≤ 30
      · rw [if_pos h30, if_pos ⟨by omega, h30⟩]
      · rw [if_neg h30, if_neg (by omega)]
  · simp only [calculate_tuv_status]
    rw [Int.fdiv_eq_ediv _ (by norm_num), if_pos (by omega)]
  · simp only [calculate_tuv_status]
    rw [Int.fdiv_eq_ediv _ (by norm_num), if_neg (by omega), if_pos (by omega)]
  · simp only [calculate_tuv_status]
    rw [Int.fdiv_eq_ediv _ (by norm_num), if_neg (by omega), if_pos (by omega)]
  · simp only [calculate_tuv_status]
    rw [Int.fdiv_eq_ediv _ (by norm_num), if_neg (by omega), if_neg (by omega)]

/-- Helper: the coercion-failure reason never coincides with the default
range-violation reason of a rating item (their first characters differ). -/
theorem coercion_msg_ne_rating_msg (e : String) :
    "Ungültiger Wert: " ++ e ≠ "Bewertung muss zwischen 1 und 6 liegen" := by
  obtain ⟨le⟩ := e
  intro h
  have h2 := congrArg String.data h
  simp [String.data] at h2

/-- Helper: `validate_item_result` on a vehicle-info item returns the fixed
rejection reason whatever the payload and configuration are. -/
theorem validate_vehicle_info_rejects (now : Int) (item : ChecklistItem)
    (rd : ItemErgebnisCreate) (h : item.item_type = some .vehicle_info) :
    validate_item_result now item rd =
      some "Fahrzeugdaten können nicht bearbeitet werden" := by
  simp [validate_item_result, h]

/-- C8: for rating items without explicit configuration, `validate` accepts an
integer value exactly when it lies in `[1, 6]` (so 0 and 7 are rejected), a
range violation carries the default range reason, and a non-numeric value is
rejected with a coercion reason distinct from the range reason; percentage
items without explicit configuration accept an integer exactly when it lies
in `[0, 100]` (so -1 and 101 are rejected). -/
theorem C8_rating_percentage_validation :
    ∀ (now : Int) (item : ChecklistItem) (rd : ItemErgebnisCreate),
      (item.item_type = some .rating_1_6 → item.validation_config = none →
        (∀ n : Int, rd.wert = some (.wInt n) →
          (validate_item_result now item rd = none ↔ 1 ≤ n ∧ n ≤ 6)) ∧
        (∀ n : Int, rd.wert = some (.wInt n) → ¬ (1 ≤ n ∧ n ≤ 6) →
          validate_item_result now item rd =
            some "Bewertung muss zwischen 1 und 6 liegen") ∧
        (∀ (w : Wert) (e : String), rd.wert = some w → int_of_wert w = .error e →
          validate_item_result now item rd = some ("Ungültiger Wert: " ++ e) ∧
          "Ungültiger Wert: " ++ e ≠ "Bewertung muss zwischen 1 und 6 liegen")) ∧
      (item.item_type = some .percentage → item.validation_config = none →
        ∀ n : Int, rd.wert = some (.wInt n) →
          (validate_item_result now item rd = none ↔ 0 ≤ n ∧ n ≤ 100)) := by
  intro now item rd
  constructor
  · intro ht hc
    refine ⟨?_, ?_, ?_⟩
    · intro n hw
      simp only [validate_item_result, ht, hc, hw, int_of_wert, Option.getD]
      by_cases h : 1 ≤ n ∧ n ≤ 6
      · simp [h]
      · simp [h]
    · intro n hw hrange
      simp only [validate_item_result, ht, hc, hw, int_of_wert, Option.getD]
      simp only [if_pos hrange]
      decide
    · intro w e hw he
      refine ⟨?_, coercion_msg_ne_rating_msg e⟩
      simp only [validate_item_result, ht, hc, hw, he, Option.getD]
  · intro ht hc n hw
    simp only [validate_item_result, ht, hc, hw, float_of_wert, Option.getD]
    by_cases h : 0 ≤ n ∧ n ≤ 100
    · simp [h]
    · simp [h]

/-- C8 witness: the rating item accepts 3, rejects 0 with the range reason and
"abc" with the coercion reason; the percentage item accepts 100. -/
theorem C8_rating_percentage_validation_witness :
    validate_item_result 0 itemRatingW (rdWert (some (.wInt 3))) = none ∧
    validate_item_result 0 itemRatingW (rdWert (some (.wInt 0))) =
      some "Bewertung muss zwischen 1 und 6 liegen" ∧
    validate_item_result 0 itemRatingW (rdWert (some (.wStr "abc"))) =
      some ("Ungültiger Wert: " ++ "invalid literal for int() with base 10: abc") ∧
    validate_item_result 0 itemPctW (rdWert (some (.wInt 100))) = none := by
  refine ⟨?_, ?_, ?_, ?_⟩
  · exact (((C8_rating_percentage_validation 0 itemRatingW
      (rdWert (some (.wInt 3)))).1 rfl rfl).1 3 rfl).mpr (by decide)
  · exact ((C8_rating_percentage_validation 0 itemRatingW
      (rdWert (some (.wInt 0)))).1 rfl rfl).2.1 0 rfl (by decide)
  · have habc : int_of_wert (.wStr "abc") =
        .error "invalid literal for int() with base 10: abc" := by
      have hn : str_toInt "abc" = none := by decide
      simp [int_of_wert, hn]
    exact (((C8_rating_percentage_validation 0 itemRatingW
      (rdWert (some (.wStr "abc")))).1 rfl rfl).2.2 (.wStr "abc")
      "invalid literal for int() with base 10: abc" rfl habc).1
  · exact ((C8_rating_percentage_validation 0 itemPctW
      (rdWert (some (.wInt 100)))).2 rfl rfl 100 rfl).mpr (by decide)

/-- C9: a vehicle-info item rejects every proposed result with the fixed
reason, whatever the configuration; and the enhanced record route never
succeeds on a vehicle-info item for any acting user, any store and any
payload — value acceptance is independent of permissions. -/
theorem C9_vehicle_info_unconditional_reject :
    (∀ (now : Int) (item : ChecklistItem) (rd : ItemErgebnisCreate),
       item.item_type = some .vehicle_info →
       validate_item_result now item rd =
         some "Fahrzeugdaten können nicht bearbeitet werden") ∧
    (∀ (db : DB) (execution_id : Nat) (rd : ItemErgebnisCreate) (u : Benutzer)
       (now : Int) (item : ChecklistItem),
       getChecklistItem db rd.item_id = some item →
       item.item_type = some .vehicle_info →
       ∀ out, create_enhanced_item_result db execution_id rd u now ≠ .ok out) := by
  constructor
  · exact fun now item rd h => validate_vehicle_info_rejects now item rd h
  · intro db eid rd u now item hit ht out h
    cases hga : getAusfuehrung db eid with
    | none => simp [create_enhanced_item_result, hga] at h
    | some execution =>
      simp only [create_enhanced_item_result, hga, hit,
          validate_vehicle_info_rejects now item rd ht] at h
      split at h <;> simp_all

/-- C9 witness: the concrete vehicle-info item with empty configuration
rejects, and the enhanced route fails for the admin caller. -/
theorem C9_vehicle_info_unconditional_reject_witness :
    validate_item_result 0 itemViW rdVi =
      some "Fahrzeugdaten können nicht bearbeitet werden" ∧
    create_enhanced_item_result dbC9 1 rdVi adminW 0 ≠ .ok outW := by
  refine ⟨?_, ?_⟩
  · exact C9_vehicle_info_unconditional_reject.1 0 itemViW rdVi rfl
  · exact C9_vehicle_info_unconditional_reject.2 dbC9 1 rdVi adminW 0 itemViW
      rfl rfl outW

/-- C10 counterexample: a typed item that is not vehicle-info (kind
`standard`, with `required_fields` naming the presence flag) rejects the
all-null proposed result, so a null type-relevant field is not always
accepted. -/
theorem C10_counterexample :
    itemC10.item_type = some .standard ∧
    rdNullW.vorhanden = none ∧ rdNullW.wert = none ∧ rdNullW.menge = none ∧
    rdNullW.tuv_datum = none ∧
    validate_item_result 0 itemC10 rdNullW =
      some "Angabe erforderlich: Ist das Element vorhanden?" := by decide

/-- C10 (amended): for every typed item of kind rating, percentage,
atemschutz, quantity, status-check or date-check, a proposed result whose
type-relevant field is null (for status-check: empty, the status column being
non-nullable) is accepted, because each rule is only evaluated when its field
is present; for standard items this additionally requires that `vorhanden`
is not listed in the configured `required_fields` — otherwise the null
presence flag is rejected (see the counterexample). -/
theorem C10_null_typed_field_accepted :
    ∀ (now : Int) (item : ChecklistItem) (rd : ItemErgebnisCreate)
      (kind : ChecklistItemTypeEnum),
      item.item_type = some kind →
      typeRelevantFieldAbsent kind rd = true →
      kind ≠ .vehicle_info →
      (kind = .standard →
        ((item.validation_config.getD {}).required_fields.getD []).contains
          "vorhanden" = false) →
      validate_item_result now item rd = none := by
  intro now item rd kind ht habs hvi hstd
  cases kind with
  | vehicle_info => exact absurd rfl hvi
  | rating_1_6 =>
      have hw : rd.wert = none := by
        simpa [typeRelevantFieldAbsent, Option.isNone_iff_eq_none] using habs
      simp [validate_item_result, ht, hw]
  | percentage =>
      have hw : rd.wert = none := by
        simpa [typeRelevantFieldAbsent, Option.isNone_iff_eq_none] using habs
      simp [validate_item_result, ht, hw]
  | atemschutz =>
      have hw : rd.wert = none := by
        simpa [typeRelevantFieldAbsent, Option.isNone_iff_eq_none] using habs
      simp [validate_item_result, ht, hw]
  | quantity =>
      have hm : rd.menge = none := by
        simpa [typeRelevantFieldAbsent, Option.isNone_iff_eq_none] using habs
      simp [validate_item_result, ht, hm]
  | status_check =>
      have hs : rd.status = "" := by
        simpa [typeRelevantFieldAbsent] using habs
      simp [validate_item_result, ht, hs]
  | date_check =>
      have hd : rd.tuv_datum = none := by
        simpa [typeRelevantFieldAbsent, Option.isNone_iff_eq_none] using habs
      simp [validate_item_result, ht, hd]
  | standard =>
      have hmem : "vorhanden" ∉
          ((item.validation_config.getD {}).required_fields.getD []) := by
        simpa using hstd rfl
      simp [validate_item_result, ht, hmem]

/-- C10 witness: the quantity item accepts the all-null payload. -/
theorem C10_null_typed_field_accepted_witness :
    validate_item_result 0 itemQtyW rdNullW = none :=
  C10_null_typed_field_accepted 0 itemQtyW rdNullW .quantity rfl (by decide)
    (by decide) (by decide)

/-- C3 counterexample: in `dbC3` the checklist belongs to vehicle group 10 and
the vehicle to group 20, yet `start_checklist_run` succeeds and creates an
execution instead of failing with NotFound. -/
theorem C3_counterexample :
    (getCheckliste dbC3 1).map Checkliste.fahrzeuggruppe_id = some 10 ∧
    (getFahrzeug dbC3 2).map Fahrzeug.fahrzeuggruppe_id = some 20 ∧
    (start_checklist_run dbC3 1 2 benutzerW).toOption.isSome = true ∧
    ((start_checklist_run dbC3 1 2 benutzerW).toOption.map
        (fun p => p.1.ausfuehrungen.length)) = some 1 ∧
    dbC3.ausfuehrungen = [] := by decide

/-- C3 (amended): only `start_checklist_for_vehicle` enforces the vehicle
group: when the checklist's group differs from the vehicle's (and checklist
ids are unambiguous) it fails with NotFound; the cited
`start_checklist_run` makes no group comparison and, absent an active run,
creates the execution despite the mismatch. -/
theorem C3_cross_group_only_vehicle_route :
    ∀ (db : DB) (cid vid : Nat) (u : Benutzer) (c : Checkliste) (v : Fahrzeug),
      getCheckliste db cid = some c →
      getFahrzeug db vid = some v →
      c.fahrzeuggruppe_id ≠ v.fahrzeuggruppe_id →
      (findActiveRun db cid vid = none →
        ∃ db2 run, start_checklist_run db cid vid u = .ok (db2, run) ∧
          db2.ausfuehrungen = db.ausfuehrungen ++ [run] ∧
          run.status = "started") ∧
      ((∀ c2, c2 ∈ db.checklisten → c2.id = cid → c2 = c) →
        start_checklist_for_vehicle db vid cid u =
          .error (.notFound
            "Checkliste nicht gefunden oder nicht verfügbar für dieses Fahrzeug")) := by
  intro db cid vid u c v h1 h2 h3
  constructor
  · intro hfa
    refine ⟨{ db with
        ausfuehrungen := db.ausfuehrungen ++ [newRun db cid vid u],
        next_id := db.next_id + 1 },
      newRun db cid vid u, ?_, rfl, rfl⟩
    simp [start_checklist_run, h1, h2, hfa]
  · intro huniq
    have hfind : db.checklisten.find? (fun c2 =>
        c2.id == cid && c2.fahrzeuggruppe_id == v.fahrzeuggruppe_id &&
        !c2.template) = none := by
      rw [List.find?_eq_none]
      intro c2 hmem hc2
      simp only [Bool.and_eq_true, beq_iff_eq] at hc2
      exact h3 (huniq c2 hmem hc2.1.1 ▸ hc2.1.2)
    simp [start_checklist_for_vehicle, h2, hfind]

/-- C4 counterexample: in `dbC4` execution 1 is completed, yet the enhanced
record route succeeds and stores a new item result. -/
theorem C4_counterexample :
    (getAusfuehrung dbC4 1).map ChecklistAusfuehrung.status = some "completed" ∧
    (create_enhanced_item_result dbC4 1 rdNullW benutzer7 0).toOption.isSome = true ∧
    ((create_enhanced_item_result dbC4 1 rdNullW benutzer7 0).toOption.map
        (fun p => p.1.ergebnisse.length)) = some 1 ∧
    dbC4.ergebnisse.length = 0 := by decide

/-- C4 (amended): the basic record route and the sync processor's
update-item-result action fail with Conflict on an execution whose status is
not started and leave the store untouched; the enhanced record route performs
no such status check (see the counterexample). -/
theorem C4_record_after_completion_conflict :
    ∀ (db : DB) (run_id : Nat) (rd : ItemErgebnisCreate) (u : Benutzer)
      (run : ChecklistAusfuehrung) (item_id : Nat) (st : String)
      (k : Option String) (now : Int),
      getAusfuehrung db run_id = some run →
      run.status ≠ "started" →
      record_item_result db run_id rd u =
        .error (.conflict "Durchführung ist nicht aktiv") ∧
      process_sync_action db u (.update_item_result run_id item_id st k) now =
        (db, failResult "Durchführung ist nicht aktiv") := by
  intro db run_id rd u run item_id st k now h1 h2
  constructor
  · simp [record_item_result, h1, h2]
  · simp [process_sync_action, h1, h2]

/-- C4 witness: the concrete completed execution of `dbC4` is rejected with
Conflict on the basic route and on the sync action. -/
theorem C4_record_after_completion_conflict_witness :
    record_item_result dbC4 1 rdNullW benutzer7 =
      .error (.conflict "Durchführung ist nicht aktiv") ∧
    process_sync_action dbC4 benutzer7 (.update_item_result 1 3 "ok" none) 0 =
      (dbC4, failResult "Durchführung ist nicht aktiv") :=
  C4_record_after_completion_conflict dbC4 1 rdNullW benutzer7
    { id := 1, checkliste_id := 1, fahrzeug_id := 1, benutzer_id := 7,
      status := "completed" } 3 "ok" none 0 (by decide) (by decide)

/-- C3 witness: on the concrete cross-group store, the cited route creates
the execution and the vehicles route fails with NotFound. -/
theorem C3_cross_group_only_vehicle_route_witness :
    ((start_checklist_run dbC3 1 2 benutzerW).toOption.map
        (fun p => (p.1.ausfuehrungen == dbC3.ausfuehrungen ++ [p.2],
                   p.2.status))) = some (true, "started") ∧
    start_checklist_for_vehicle dbC3 2 1 benutzerW =
      .error (.notFound
        "Checkliste nicht gefunden oder nicht verfügbar für dieses Fahrzeug") := by
  have h := C3_cross_group_only_vehicle_route dbC3 1 2 benutzerW
    { id := 1, name := "A", fahrzeuggruppe_id := 10 }
    { id := 2, fahrzeuggruppe_id := 20 } (by decide) (by decide) (by decide)
  obtain ⟨db2, run, heq, ha, hs⟩ := h.1 (by decide)
  refine ⟨?_, h.2 (by decide)⟩
  rw [heq]
  simp [Except.toOption, ha, hs]

/-- Helper: in-place mutation of the first matching result row keeps the
number of rows. -/
theorem updateFirstErgebnis_length (l : List ItemErgebnis)
    (p : ItemErgebnis → Bool) (f : ItemErgebnis → ItemErgebnis) :
    (updateFirstErgebnis l p f).length = l.length := by
  induction l with
  | nil => rfl
  | cons r rs ih =>
    simp only [updateFirstErgebnis]
    split <;> simp [ih]

/-- C5 counterexample: resubmitting for the (execution, item) pair of `dbC5`
with a null comment wipes the stored comment instead of keeping it, on the
basic record route. -/
theorem C5_counterexample :
    rdC5.kommentar = none ∧
    (findErgebnis dbC5 1 3).map ItemErgebnis.kommentar = some (some "alt") ∧
    ((record_item_result dbC5 1 rdC5 benutzer7).toOption.map
        (fun p => p.2.kommentar)) = some none ∧
    ((record_item_result dbC5 1 rdC5 benutzer7).toOption.map
        (fun p => p.1.ergebnisse.map ItemErgebnis.kommentar)) =
      some [none] := by decide

/-- C5 (amended): a second submission for an existing (execution, item) pair
never adds a row — it mutates the stored row in place, the row count staying
fixed; on the enhanced route only non-null payload fields overwrite the
stored ones, while the basic route overwrites status and kommentar with the
payload values unconditionally (a null kommentar clears the stored one, see
the counterexample); on first submission both routes append one row carrying
every payload field. -/
theorem C5_upsert_no_duplicate :
    ∀ (db : DB) (run_id : Nat) (rd : ItemErgebnisCreate) (u : Benutzer) (now : Int),
      (∀ (run : ChecklistAusfuehrung) (item : ChecklistItem) (existing : ItemErgebnis),
        getAusfuehrung db run_id = some run →
        run.status = "started" →
        (run.benutzer_id = u.id ∨ u.rolle ∈ ["organisator", "admin"]) →
        getItemInChecklist db rd.item_id run.checkliste_id = some item →
        rd.status ∈ ["ok", "fehler", "nicht_pruefbar"] →
        findErgebnis db run_id rd.item_id = some existing →
        ∃ db2, record_item_result db run_id rd u =
            .ok (db2, basicUpdateRow rd existing) ∧
          db2.ergebnisse.length = db.ergebnisse.length) ∧
      (∀ (run : ChecklistAusfuehrung) (item : ChecklistItem),
        getAusfuehrung db run_id = some run →
        run.status = "started" →
        (run.benutzer_id = u.id ∨ u.rolle ∈ ["organisator", "admin"]) →
        getItemInChecklist db rd.item_id run.checkliste_id = some item →
        rd.status ∈ ["ok", "fehler", "nicht_pruefbar"] →
        findErgebnis db run_id rd.item_id = none →
        ∃ db2, record_item_result db run_id rd u =
            .ok (db2, newResultRow db.next_id run_id rd) ∧
          db2.ergebnisse = db.ergebnisse ++ [newResultRow db.next_id run_id rd]) ∧
      (∀ (run : ChecklistAusfuehrung) (item : ChecklistItem) (existing : ItemErgebnis),
        getAusfuehrung db run_id = some run →
        (run.benutzer_id = u.id ∨ u.rolle ∈ ["organisator", "admin"]) →
        getChecklistItem db rd.item_id = some item →
        validate_item_result now item rd = none →
        findErgebnis db run_id rd.item_id = some existing →
        ∃ db2, create_enhanced_item_result db run_id rd u now =
            .ok (db2, enhancedUpdate rd existing) ∧
          db2.ergebnisse.length = db.ergebnisse.length) ∧
      (∀ (run : ChecklistAusfuehrung) (item : ChecklistItem),
        getAusfuehrung db run_id = some run →
        (run.benutzer_id = u.id ∨ u.rolle ∈ ["organisator", "admin"]) →
        getChecklistItem db rd.item_id = some item →
        validate_item_result now item rd = none →
        findErgebnis db run_id rd.item_id = none →
        ∃ db2, create_enhanced_item_result db run_id rd u now =
            .ok (db2, newResultRow db.next_id run_id rd) ∧
          db2.ergebnisse = db.ergebnisse ++ [newResultRow db.next_id run_id rd]) := by
  intro db run_id rd u now
  refine ⟨?_, ?_, ?_, ?_⟩
  · intro run item existing hga hs hperm hitem hst hfind
    refine ⟨{ db with
        ergebnisse := updateFirstErgebnis db.ergebnisse (ergebnisPred run_id rd.item_id) (basicUpdateRow rd) },
      ?_, ?_⟩
    · rcases hperm with hperm | hperm <;>
        simp [record_item_result, hga, hitem, hfind, hs, hst, hperm,
              basicUpdateRow]
    · simp [updateFirstErgebnis_length]
  · intro run item hga hs hperm hitem hst hfind
    refine ⟨{ db with
        ergebnisse := db.ergebnisse ++ [newResultRow db.next_id run_id rd],
        next_id := db.next_id + 1 }, ?_, rfl⟩
    rcases hperm with hperm | hperm <;>
      simp [record_item_result, hga, hitem, hfind, hs, hst, hperm, newResultRow]
  · intro run item existing hga hperm hitem hval hfind
    refine ⟨{ db with
        ergebnisse := updateFirstErgebnis db.ergebnisse (ergebnisPred run_id rd.item_id) (enhancedUpdate rd) },
      ?_, ?_⟩
    · rcases hperm with hperm | hperm <;>
        simp [create_enhanced_item_result, hga, hitem, hval, hfind, hperm]
    · simp [updateFirstErgebnis_length]
  · intro run item hga hperm hitem hval hfind
    refine ⟨{ db with
        ergebnisse := db.ergebnisse ++ [newResultRow db.next_id run_id rd],
        next_id := db.next_id + 1 }, ?_, rfl⟩
    rcases hperm with hperm | hperm <;>
      simp [create_enhanced_item_result, hga, hitem, hval, hfind, hperm,
            newResultRow]

/-- C5 witness: on `dbC5` the basic update wipes the stored comment while
the enhanced update keeps it, both leaving exactly one row; on `dbC5n`
(no stored row) both routes insert exactly one row with the payload
fields. -/
theorem C5_upsert_no_duplicate_witness :
    ((record_item_result dbC5 1 rdC5 benutzer7).toOption.map
        (fun p => (p.2.kommentar, p.1.ergebnisse.length))) = some (none, 1) ∧
    ((create_enhanced_item_result dbC5 1 rdC5 benutzer7 0).toOption.map
        (fun p => (p.2.kommentar, p.1.ergebnisse.length))) =
      some (some "alt", 1) ∧
    ((record_item_result dbC5n 1 rdC5 benutzer7).toOption.map
        (fun p => (p.1.ergebnisse.length, p.2.kommentar))) = some (1, none) ∧
    ((create_enhanced_item_result dbC5n 1 rdC5 benutzer7 0).toOption.map
        (fun p => (p.1.ergebnisse.length, p.2.kommentar))) = some (1, none) := by
  have h := C5_upsert_no_duplicate dbC5 1 rdC5 benutzer7 0
  have hn := C5_upsert_no_duplicate dbC5n 1 rdC5 benutzer7 0
  obtain ⟨d1, he1, hl1⟩ := h.1
    { id := 1, checkliste_id := 1, fahrzeug_id := 1, benutzer_id := 7 }
    { id := 3, checkliste_id := 1 }
    { id := 4, ausfuehrung_id := 1, item_id := 3, status := "ok",
      kommentar := some "alt" }
    (by decide) (by decide) (Or.inl (by decide)) (by decide) (by decide) (by decide)
  obtain ⟨d2, he2, hl2⟩ := h.2.2.1
    { id := 1, checkliste_id := 1, fahrzeug_id := 1, benutzer_id := 7 }
    { id := 3, checkliste_id := 1 }
    { id := 4, ausfuehrung_id := 1, item_id := 3, status := "ok",
      kommentar := some "alt" }
    (by decide) (Or.inl (by decide)) (by decide) (by decide) (by decide)
  obtain ⟨d3, he3, hd3⟩ := hn.2.1
    { id := 1, checkliste_id := 1, fahrzeug_id := 1, benutzer_id := 7 }
    { id := 3, checkliste_id := 1 }
    (by decide) (by decide) (Or.inl (by decide)) (by decide) (by decide) (by decide)
  obtain ⟨d4, he4, hd4⟩ := hn.2.2.2
    { id := 1, checkliste_id := 1, fahrzeug_id := 1, benutzer_id := 7 }
    { id := 3, checkliste_id := 1 }
    (by decide) (Or.inl (by decide)) (by decide) (by decide) (by decide)
  refine ⟨?_, ?_, ?_, ?_⟩
  · rw [he1]
    simp [Except.toOption, hl1, rdC5, dbC5, basicUpdateRow]
  · rw [he2]
    simp [Except.toOption, hl2, rdC5, dbC5, enhancedUpdate]
  · rw [he3]
    simp [Except.toOption, hd3, rdC5, dbC5n, dbC5, newResultRow]
  · rw [he4]
    simp [Except.toOption, hd4, rdC5, dbC5n, dbC5, newResultRow]

/-- C6: replaying a create-execution sync action is idempotent — the first
processing creates exactly one started run with the fresh id, the second
returns success carrying that same id and leaves the store unchanged. -/
theorem C6_create_execution_replay_idempotent :
    ∀ (db : DB) (u : Benutzer) (cid vid : Nat) (now : Int)
      (c : Checkliste) (v : Fahrzeug),
      getCheckliste db cid = some c →
      getFahrzeug db vid = some v →
      findActiveRun db cid vid = none →
      (process_sync_action db u (.create_checklist_run cid vid) now).2.success = true ∧
      (process_sync_action db u (.create_checklist_run cid vid) now).2.resource_id =
        some db.next_id ∧
      (process_sync_action db u (.create_checklist_run cid vid) now).1.ausfuehrungen =
        db.ausfuehrungen ++ [newRun db cid vid u] ∧
      process_sync_action
          (process_sync_action db u (.create_checklist_run cid vid) now).1 u
          (.create_checklist_run cid vid) now =
        ((process_sync_action db u (.create_checklist_run cid vid) now).1,
         { success := true, resource_id := some db.next_id,
           message := some "Bereits aktive Durchführung" }) := by
  intro db u cid vid now c v h1 h2 h3
  have hstep : process_sync_action db u (.create_checklist_run cid vid) now =
      ({ db with ausfuehrungen := db.ausfuehrungen ++ [newRun db cid vid u],
                 next_id := db.next_id + 1 },
       { success := true, resource_id := some db.next_id }) := by
    simp [process_sync_action, h1, h2, h3, newRun]
  simp only [getCheckliste] at h1
  simp only [getFahrzeug] at h2
  simp only [findActiveRun] at h3
  rw [hstep]
  refine ⟨rfl, rfl, rfl, ?_⟩
  simp [process_sync_action, getCheckliste, getFahrzeug, findActiveRun,
        h1, h2, h3, newRun, activePred]

/-- C6 witness: on the concrete same-group store the replay behaves as
stated. -/
theorem C6_create_execution_replay_idempotent_witness :
    (process_sync_action dbC6 benutzer7 (.create_checklist_run 1 2) 0).2.success = true ∧
    (process_sync_action dbC6 benutzer7 (.create_checklist_run 1 2) 0).2.resource_id =
      some dbC6.next_id ∧
    (process_sync_action dbC6 benutzer7 (.create_checklist_run 1 2) 0).1.ausfuehrungen =
      dbC6.ausfuehrungen ++ [newRun dbC6 1 2 benutzer7] ∧
    process_sync_action
        (process_sync_action dbC6 benutzer7 (.create_checklist_run 1 2) 0).1 benutzer7
        (.create_checklist_run 1 2) 0 =
      ((process_sync_action dbC6 benutzer7 (.create_checklist_run 1 2) 0).1,
       { success := true, resource_id := some dbC6.next_id,
         message := some "Bereits aktive Durchführung" }) :=
  C6_create_execution_replay_idempotent dbC6 benutzer7 1 2 0
    { id := 1, fahrzeuggruppe_id := 10 } { id := 2, fahrzeuggruppe_id := 10 }
    (by decide) (by decide) (by decide)

/-- Helper: the sync loop visits every action — the processed and failed
counters sum to the batch length and each failure contributes exactly one
error entry. -/
theorem syncLoop_counts (u : Benutzer) (now : Int) :
    ∀ (actions : List OfflineAction) (db : DB),
      (syncLoop u now actions db).2.1 + (syncLoop u now actions db).2.2.1 =
        actions.length ∧
      (syncLoop u now actions db).2.2.2.length =
        (syncLoop u now actions db).2.2.1 := by
  intro actions
  induction actions with
  | nil => intro db; simp [syncLoop]
  | cons a rest ih =>
    intro db
    obtain ⟨hpf, hel⟩ := ih (process_sync_action db u a.action now).1
    cases hs : (process_sync_action db u a.action now).2.success with
    | true =>
      constructor
      · simp [syncLoop, hs]
        omega
      · simp [syncLoop, hs, hel]
    | false =>
      constructor
      · simp [syncLoop, hs]
        omega
      · simp [syncLoop, hs, hel]

/-- C7: the batch processor visits all actions: processed plus failed equals
the batch length with one error entry per failure; with zero successes the
store is rolled back to its initial state, with at least one success the
store is the one the loop produced (all successful effects committed
together); on the concrete 3-action batch whose second action references a
missing execution, the response is processed 2 / failed 1 with the single
error entry, and both successes' effects (the created run and the stored
result) are visible. -/
theorem C7_batch_processes_all :
    (∀ (db : DB) (u : Benutzer) (actions : List OfflineAction) (now : Int),
      (push_actions db u actions now).2.processed +
        (push_actions db u actions now).2.failed = actions.length ∧
      (push_actions db u actions now).2.errors.length =
        (push_actions db u actions now).2.failed ∧
      ((push_actions db u actions now).2.processed = 0 →
        (push_actions db u actions now).1 = db) ∧
      (0 < (push_actions db u actions now).2.processed →
        (push_actions db u actions now).1 = (syncLoop u now actions db).1)) ∧
    (push_actions dbC6 benutzer7 actsC7 0).2 =
      { processed := 2, failed := 1, errors := [errC7] } ∧
    (push_actions dbC6 benutzer7 actsC7 0).1.ausfuehrungen.length = 1 ∧
    (push_actions dbC6 benutzer7 actsC7 0).1.ergebnisse.length = 1 := by
  refine ⟨?_, by decide, by decide, by decide⟩
  intro db u actions now
  obtain ⟨hpf, hel⟩ := syncLoop_counts u now actions db
  by_cases hp : (syncLoop u now actions db).2.1 > 0
  · refine ⟨?_, ?_, ?_, ?_⟩ <;> simp only [push_actions, if_pos hp]
    · exact hpf
    · exact hel
    · intro h0; omega
    · intro _; trivial
  · refine ⟨?_, ?_, ?_, ?_⟩ <;> simp only [push_actions, if_neg hp]
    · exact hpf
    · exact hel
    · intro _; trivial
    · intro hgt; omega

/-- C7 witness: the general counting facts instantiated on the concrete
batch. -/
theorem C7_batch_processes_all_witness :
    (push_actions dbC6 benutzer7 actsC7 0).2.processed +
      (push_actions dbC6 benutzer7 actsC7 0).2.failed = actsC7.length ∧
    (push_actions dbC6 benutzer7 actsC7 0).2.errors.length =
      (push_actions dbC6 benutzer7 actsC7 0).2.failed ∧
    (push_actions dbC6 benutzer7 actsC7 0).1 =
      (syncLoop benutzer7 0 actsC7 dbC6).1 := by
  obtain ⟨h1, h2, _, h4⟩ := C7_batch_processes_all.1 dbC6 benutzer7 actsC7 0
  exact ⟨h1, h2, h4 (by decide)⟩

/-- Helper: the at-most-one invariant does not depend on anything but the
execution table. -/
theorem atMostOne_of_eq (db db2 : DB) (h : AtMostOneActive db)
    (he : db2.ausfuehrungen = db.ausfuehrungen) : AtMostOneActive db2 := by
  intro c v
  unfold AtMostOneActive activeRuns at *
  rw [he]
  exact h c v

/-- Helper: appending a fresh started run for a pair that had no active run
keeps every pair's active count at one or below. -/
theorem filter_active_append_le_one (l : List ChecklistAusfuehrung)
    (cid vid : Nat) (nr : ChecklistAusfuehrung)
    (h : ∀ c v, (l.filter (activePred c v)).length ≤ 1)
    (hfind : l.find? (activePred cid vid) = none)
    (hcid : nr.checkliste_id = cid) (hvid : nr.fahrzeug_id = vid) :
    ∀ c v, ((l ++ [nr]).filter (activePred c v)).length ≤ 1 := by
  intro c v
  rw [List.filter_append]
  cases hp : activePred c v nr with
  | false =>
    simp [List.filter, hp]
    exact h c v
  | true =>
    have hpc : nr.checkliste_id = c ∧ nr.fahrzeug_id = v := by
      simp only [activePred, Bool.and_eq_true, beq_iff_eq] at hp
      exact ⟨hp.1.1, hp.1.2⟩
    have hc : c = cid := by rw [← hpc.1, hcid]
    have hv : v = vid := by rw [← hpc.2, hvid]
    subst hc
    subst hv
    have hnil : l.filter (activePred c v) = [] := by
      rw [List.filter_eq_nil_iff]
      intro a ha
      exact List.find?_eq_none.mp hfind a ha
    rw [hnil]
    simp [List.filter, hp]

/-- Helper: mutating the first matching run into a non-started state never
increases any pair's active count. -/
theorem filter_updateFirstAusf_le (l : List ChecklistAusfuehrung)
    (p : ChecklistAusfuehrung → Bool)
    (f : ChecklistAusfuehrung → ChecklistAusfuehrung)
    (q : ChecklistAusfuehrung → Bool) (hf : ∀ r, q (f r) = false) :
    ((updateFirstAusfuehrung l p f).filter q).length ≤ (l.filter q).length := by
  induction l with
  | nil => simp [updateFirstAusfuehrung]
  | cons r rs ih =>
    simp only [updateFirstAusfuehrung]
    by_cases hp : p r
    · rw [if_pos hp]
      cases hq : q r with
      | false => simp [List.filter_cons, hq, hf]
      | true => simp [List.filter_cons, hq, hf]
    · rw [if_neg hp]
      cases hq : q r with
      | false =>
        simp [List.filter_cons, hq]
        exact ih
      | true =>
        simp [List.filter_cons, hq]
        exact ih

/-- Helper: a successful basic record operation leaves the execution table
unchanged. -/
theorem record_ausf_unchanged (db : DB) (rid : Nat) (rd : ItemErgebnisCreate)
    (u : Benutzer) (db2 : DB) (res : ItemErgebnis)
    (h : record_item_result db rid rd u = .ok (db2, res)) :
    db2.ausfuehrungen = db.ausfuehrungen := by
  cases hga : getAusfuehrung db rid with
  | none => simp [record_item_result, hga] at h
  | some run =>
    simp only [record_item_result, hga] at h
    repeat' split at h
    all_goals try (exact (Except.noConfusion h))
    all_goals (injection h with hpair; injection hpair with h1 h2; rw [← h1])

/-- Helper: a successful enhanced record operation leaves the execution
table unchanged. -/
theorem enhanced_ausf_unchanged (db : DB) (eid : Nat) (rd : ItemErgebnisCreate)
    (u : Benutzer) (now : Int) (db2 : DB) (res : ItemErgebnis)
    (h : create_enhanced_item_result db eid rd u now = .ok (db2, res)) :
    db2.ausfuehrungen = db.ausfuehrungen := by
  cases hga : getAusfuehrung db eid with
  | none => simp [create_enhanced_item_result, hga] at h
  | some execution =>
    simp only [create_enhanced_item_result, hga] at h
    repeat' split at h
    all_goals try (exact (Except.noConfusion h))
    all_goals (injection h with hpair; injection hpair with h1 h2; rw [← h1])

/-- Helper: a successful completion rewrites the first matching run to the
completed state and changes nothing else in the execution table. -/
theorem complete_ausf_char (db : DB) (rid : Nat) (u : Benutzer) (now : Int)
    (db2 : DB) (h : complete_checklist_run db rid u now = .ok db2) :
    db2.ausfuehrungen =
      updateFirstAusfuehrung db.ausfuehrungen (fun r => r.id == rid)
        (fun r => { r with status := "completed", completed_at := some now }) := by
  cases hga : getAusfuehrung db rid with
  | none => simp [complete_checklist_run, hga] at h
  | some run =>
    simp only [complete_checklist_run, hga] at h
    repeat' split at h
    all_goals try (exact (Except.noConfusion h))
    all_goals (injection h with h1; rw [← h1])

/-- Helper: a successful start appends exactly the fresh started run, and
only fires when the pair had no active run. -/
theorem start_run_char (db : DB) (cid vid : Nat) (u : Benutzer) (db2 : DB)
    (run : ChecklistAusfuehrung)
    (h : start_checklist_run db cid vid u = .ok (db2, run)) :
    findActiveRun db cid vid = none ∧
    run = newRun db cid vid u ∧
    db2.ausfuehrungen = db.ausfuehrungen ++ [newRun db cid vid u] := by
  simp only [start_checklist_run] at h
  repeat' split at h
  all_goals try (exact (Except.noConfusion h))
  all_goals
    (injection h with hpair; injection hpair with h1 h2; subst h1; subst h2;
     simp_all)

/-- Helper: the vehicles-route start behaves identically on the execution
table. -/
theorem start_for_vehicle_char (db : DB) (vid cid : Nat) (u : Benutzer)
    (db2 : DB) (run : ChecklistAusfuehrung)
    (h : start_checklist_for_vehicle db vid cid u = .ok (db2, run)) :
    findActiveRun db cid vid = none ∧
    run = newRun db cid vid u ∧
    db2.ausfuehrungen = db.ausfuehrungen ++ [newRun db cid vid u] := by
  simp only [start_checklist_for_vehicle] at h
  repeat' split at h
  all_goals try (exact (Except.noConfusion h))
  all_goals
    (injection h with hpair; injection hpair with h1 h2; subst h1; subst h2;
     simp_all)

/-- Helper: every single sync action preserves the at-most-one-active
invariant. -/
theorem process_sync_preserves (db : DB) (u : Benutzer) (a : SyncActionData)
    (now : Int) (h : AtMostOneActive db) :
    AtMostOneActive (process_sync_action db u a now).1 := by
  cases a with
  | create_checklist_run cid vid =>
    cases hc : getCheckliste db cid with
    | none => simpa [process_sync_action, hc] using h
    | some c =>
      cases hv : getFahrzeug db vid with
      | none => simpa [process_sync_action, hc, hv] using h
      | some v =>
        cases hfa : findActiveRun db cid vid with
        | some r => simpa [process_sync_action, hc, hv, hfa] using h
        | none =>
          have hres : (process_sync_action db u (.create_checklist_run cid vid) now).1 =
              { db with ausfuehrungen := db.ausfuehrungen ++ [newRun db cid vid u],
                        next_id := db.next_id + 1 } := by
            simp [process_sync_action, hc, hv, hfa]
          rw [hres]
          intro cq vq
          exact filter_active_append_le_one db.ausfuehrungen cid vid
            (newRun db cid vid u) h hfa rfl rfl cq vq
  | update_item_result rid iid st k =>
    cases hga : getAusfuehrung db rid with
    | none => simpa [process_sync_action, hga] using h
    | some run =>
      by_cases hs : run.status ≠ "started"
      · simpa [process_sync_action, hga, hs] using h
      · cases hitem : getItemInChecklist db iid run.checkliste_id with
        | none => simpa [process_sync_action, hga, hs, hitem] using h
        | some it =>
          cases hfe : findErgebnis db rid iid with
          | some r0 =>
            refine atMostOne_of_eq db _ h ?_
            simp [process_sync_action, hga, hs, hitem, hfe]
          | none =>
            refine atMostOne_of_eq db _ h ?_
            simp [process_sync_action, hga, hs, hitem, hfe]
  | complete_checklist_run rid =>
    cases hga : getAusfuehrung db rid with
    | none => simpa [process_sync_action, hga] using h
    | some run =>
      by_cases hs : run.status ≠ "started"
      · simpa [process_sync_action, hga, hs] using h
      · by_cases hperm : run.benutzer_id ≠ u.id ∧ u.rolle ∉ ["organisator", "admin"]
        · simpa [process_sync_action, hga, hs, hperm] using h
        · have hperm2 : ¬(¬run.benutzer_id = u.id ∧
              ¬u.rolle = "organisator" ∧ ¬u.rolle = "admin") := by
            simpa using hperm
          have hres : (process_sync_action db u (.complete_checklist_run rid) now).1.ausfuehrungen =
              updateFirstAusfuehrung db.ausfuehrungen (fun r => r.id == rid)
                (fun r => { r with status := "completed", completed_at := some now }) := by
            simp [process_sync_action, hga, hs, hperm2]
          intro cq vq
          have hg : activeRuns (process_sync_action db u (.complete_checklist_run rid) now).1 cq vq =
              (updateFirstAusfuehrung db.ausfuehrungen (fun r => r.id == rid)
                (fun r => { r with status := "completed", completed_at := some now })).filter
                (activePred cq vq) := by
            unfold activeRuns
            rw [hres]
          rw [hg]
          have hle := filter_updateFirstAusf_le db.ausfuehrungen
            (fun r => r.id == rid)
            (fun r => { r with status := "completed", completed_at := some now })
            (activePred cq vq) (fun r => by simp [activePred])
          exact le_trans hle (h cq vq)
  | create_checklist name gid tpl items =>
    by_cases hrole : u.rolle ∉ ["organisator", "admin"]
    · simpa [process_sync_action, hrole] using h
    · have hrole2 : ¬(¬u.rolle = "organisator" ∧ ¬u.rolle = "admin") := by
        simpa using hrole
      refine atMostOne_of_eq db _ h ?_
      simp [process_sync_action, hrole2]
  | unknown s => simpa [process_sync_action] using h

/-- Helper: the sync loop preserves the invariant along the whole batch. -/
theorem syncLoop_preserves (u : Benutzer) (now : Int) :
    ∀ (actions : List OfflineAction) (db : DB),
      AtMostOneActive db → AtMostOneActive (syncLoop u now actions db).1 := by
  intro actions
  induction actions with
  | nil => intro db h; simpa [syncLoop] using h
  | cons a rest ih =>
    intro db h
    have h2 := ih (process_sync_action db u a.action now).1
      (process_sync_preserves db u a.action now h)
    cases hs : (process_sync_action db u a.action now).2.success with
    | true => simpa [syncLoop, hs] using h2
    | false => simpa [syncLoop, hs] using h2

/-- Helper: the whole batch endpoint preserves the invariant, whether it
commits or rolls back. -/
theorem push_actions_preserves (db : DB) (u : Benutzer)
    (actions : List OfflineAction) (now : Int) (h : AtMostOneActive db) :
    AtMostOneActive (push_actions db u actions now).1 := by
  by_cases hp : (syncLoop u now actions db).2.1 > 0
  · simpa [push_actions, hp] using syncLoop_preserves u now actions db h
  · simpa [push_actions, hp] using h

/-- C1: at most one started execution per (checklist, vehicle) pair.
`start_checklist_run` fails with Conflict when a started run exists for the
pair and otherwise appends exactly one fresh started run; the sync create
action returns success with the existing run's id on an active pair, leaving
the store unchanged; and every operation of the embedding — both start
routes, both record routes, completion and whole sync batches, the only
operations touching the execution table — preserves the invariant on every
reachable store. -/
theorem C1_at_most_one_active :
    (∀ (db : DB) (cid vid : Nat) (u : Benutzer) (c : Checkliste) (v : Fahrzeug)
       (r : ChecklistAusfuehrung),
       getCheckliste db cid = some c → getFahrzeug db vid = some v →
       findActiveRun db cid vid = some r →
       start_checklist_run db cid vid u =
         .error (.conflict "Aktive Durchführung für diese Kombination bereits vorhanden")) ∧
    (∀ (db : DB) (cid vid : Nat) (u : Benutzer) (db2 : DB)
       (run : ChecklistAusfuehrung),
       start_checklist_run db cid vid u = .ok (db2, run) →
       db2.ausfuehrungen = db.ausfuehrungen ++ [run] ∧ run.status = "started") ∧
    (∀ (db : DB) (u : Benutzer) (cid vid : Nat) (now : Int) (c : Checkliste)
       (v : Fahrzeug) (r : ChecklistAusfuehrung),
       getCheckliste db cid = some c → getFahrzeug db vid = some v →
       findActiveRun db cid vid = some r →
       process_sync_action db u (.create_checklist_run cid vid) now =
         (db, { success := true, resource_id := some r.id,
                message := some "Bereits aktive Durchführung" })) ∧
    (∀ (db : DB) (op : Op), AtMostOneActive db → AtMostOneActive (applyOp db op)) := by
  refine ⟨?_, ?_, ?_, ?_⟩
  · intro db cid vid u c v r h1 h2 h3
    simp [start_checklist_run, h1, h2, h3]
  · intro db cid vid u db2 run h
    obtain ⟨hfa, hrun, hdb⟩ := start_run_char db cid vid u db2 run h
    subst hrun
    exact ⟨hdb, rfl⟩
  · intro db u cid vid now c v r h1 h2 h3
    simp [process_sync_action, h1, h2, h3]
  · intro db op h
    cases op with
    | startRun cid vid u =>
      cases hres : start_checklist_run db cid vid u with
      | error e =>
        have happ : applyOp db (.startRun cid vid u) = db := by
          simp only [applyOp, hres]
        rw [happ]; exact h
      | ok pr =>
        have happ : applyOp db (.startRun cid vid u) = pr.1 := by
          simp only [applyOp, hres]
        rw [happ]
        obtain ⟨hfa, hrun, hdb⟩ := start_run_char db cid vid u pr.1 pr.2
          (by rw [hres])
        intro cq vq
        have hg : activeRuns pr.1 cq vq =
            (db.ausfuehrungen ++ [newRun db cid vid u]).filter (activePred cq vq) := by
          unfold activeRuns; rw [hdb]
        rw [hg]
        exact filter_active_append_le_one db.ausfuehrungen cid vid
          (newRun db cid vid u) h hfa rfl rfl cq vq
    | startForVehicle vid cid u =>
      cases hres : start_checklist_for_vehicle db vid cid u with
      | error e =>
        have happ : applyOp db (.startForVehicle vid cid u) = db := by
          simp only [applyOp, hres]
        rw [happ]; exact h
      | ok pr =>
        have happ : applyOp db (.startForVehicle vid cid u) = pr.1 := by
          simp only [applyOp, hres]
        rw [happ]
        obtain ⟨hfa, hrun, hdb⟩ := start_for_vehicle_char db vid cid u pr.1 pr.2
          (by rw [hres])
        intro cq vq
        have hg : activeRuns pr.1 cq vq =
            (db.ausfuehrungen ++ [newRun db cid vid u]).filter (activePred cq vq) := by
          unfold activeRuns; rw [hdb]
        rw [hg]
        exact filter_active_append_le_one db.ausfuehrungen cid vid
          (newRun db cid vid u) h hfa rfl rfl cq vq
    | record rid rd u =>
      cases hres : record_item_result db rid rd u with
      | error e =>
        have happ : applyOp db (.record rid rd u) = db := by
          simp only [applyOp, hres]
        rw [happ]; exact h
      | ok pr =>
        have happ : applyOp db (.record rid rd u) = pr.1 := by
          simp only [applyOp, hres]
        rw [happ]
        exact atMostOne_of_eq db pr.1 h
          (record_ausf_unchanged db rid rd u pr.1 pr.2 (by rw [hres]))
    | recordEnhanced eid rd u now =>
      cases hres : create_enhanced_item_result db eid rd u now with
      | error e =>
        have happ : applyOp db (.recordEnhanced eid rd u now) = db := by
          simp only [applyOp, hres]
        rw [happ]; exact h
      | ok pr =>
        have happ : applyOp db (.recordEnhanced eid rd u now) = pr.1 := by
          simp only [applyOp, hres]
        rw [happ]
        exact atMostOne_of_eq db pr.1 h
          (enhanced_ausf_unchanged db eid rd u now pr.1 pr.2 (by rw [hres]))
    | complete rid u now =>
      cases hres : complete_checklist_run db rid u now with
      | error e =>
        have happ : applyOp db (.complete rid u now) = db := by
          simp only [applyOp, hres]
        rw [happ]; exact h
      | ok db2 =>
        have happ : applyOp db (.complete rid u now) = db2 := by
          simp only [applyOp, hres]
        rw [happ]
        have hchar := complete_ausf_char db rid u now db2 hres
        intro cq vq
        have hg : activeRuns db2 cq vq =
            (updateFirstAusfuehrung db.ausfuehrungen (fun r => r.id == rid)
              (fun r => { r with status := "completed",
                                 completed_at := some now })).filter
              (activePred cq vq) := by
          unfold activeRuns; rw [hchar]
        rw [hg]
        have hle := filter_updateFirstAusf_le db.ausfuehrungen
          (fun r => r.id == rid)
          (fun r => { r with status := "completed", completed_at := some now })
          (activePred cq vq) (fun r => by simp [activePred])
        exact le_trans hle (h cq vq)
    | syncBatch u actions now =>
      exact push_actions_preserves db u actions now h

/-- C1 witness: the pair (checklist 5, vehicle 7) of `dbC1` is already
active, so starting again fails with Conflict and the sync create returns
the existing id 2; the fresh start on `dbC6` appends one started run; and
the invariant survives a start step on `dbC1`. -/
theorem C1_at_most_one_active_witness :
    start_checklist_run dbC1 5 7 benutzerW =
      .error (.conflict "Aktive Durchführung für diese Kombination bereits vorhanden") ∧
    (dbC6s.ausfuehrungen = dbC6.ausfuehrungen ++ [newRun dbC6 1 2 benutzerW] ∧
     (newRun dbC6 1 2 benutzerW).status = "started") ∧
    process_sync_action dbC1 benutzerW (.create_checklist_run 5 7) 0 =
      (dbC1, { success := true, resource_id := some 2,
               message := some "Bereits aktive Durchführung" }) ∧
    AtMostOneActive (applyOp dbC1 (.startRun 5 7 benutzerW)) := by
  have hinv : AtMostOneActive dbC1 := by
    intro c v
    exact le_trans (List.length_filter_le _ _) (by decide)
  refine ⟨?_, ?_, ?_, ?_⟩
  · exact C1_at_most_one_active.1 dbC1 5 7 benutzerW
      { id := 5, fahrzeuggruppe_id := 10 } { id := 7, fahrzeuggruppe_id := 10 }
      { id := 2, checkliste_id := 5, fahrzeug_id := 7, benutzer_id := 7,
        status := "started" }
      (by decide) (by decide) (by decide)
  · exact C1_at_most_one_active.2.1 dbC6 1 2 benutzerW dbC6s
      (newRun dbC6 1 2 benutzerW) rfl
  · exact C1_at_most_one_active.2.2.1 dbC1 benutzerW 5 7 0
      { id := 5, fahrzeuggruppe_id := 10 } { id := 7, fahrzeuggruppe_id := 10 }
      { id := 2, checkliste_id := 5, fahrzeug_id := 7, benutzer_id := 7,
        status := "started" }
      (by decide) (by decide) (by decide)
  · exact C1_at_most_one_active.2.2.2 dbC1 (.startRun 5 7 benutzerW) hinv

end ChecklistApp
